import Mathlib

/-!
# Verification of the tele-triage worker-pool core (application.py)

This file gives a shallow embedding of the concurrency core of
`application.py`: the Record data model, the triage-instruction table
(`get_triage_instructions`, lines 113-129), the producer step `verdict`
(lines 85-111), the intake routes `triaging` (lines 52-66) and the
completion branch of `sms` (line 81), and the worker loop `do_work`
(lines 131-165) together with the shared lock / condition discipline
around `to_respond_queue`.

Python exceptions are modelled with `Except PyErr`; the two background
worker threads (line 168 spawns exactly two) are modelled as a
deterministic labelled transition system over `SysState`, one small step
per atomic action of `do_work` or of the enqueue critical section in
`verdict`.
-/

namespace TeleTriage

/-- An attribute value stored in a user record: `application.py` stores
strings (phone number, triage code, instructions, zip code) and booleans
(the `get_hospital` flag). -/
inductive Val where
  | str (s : String)
  | bool (b : Bool)
  deriving DecidableEq, Repr

/-- Python truthiness for the values we store (`if user.values[...]:`,
line 140): a string is truthy iff nonempty, a bool is itself. -/
def truthy : Val → Bool
  | .str s => s ≠ ""
  | .bool b => b

/-- Rendering a value into an f-string, as Python `str()` does. -/
def pyStr : Val → String
  | .str s => s
  | .bool b => if b then "True" else "False"

/-- A user record: the `user` objects held in `user_queue` and
`to_respond_queue` carry a phone number (`uuid`) and a mutable dict of
values (`user_vals` / `user.values`). -/
structure Record where
  uuid : String
  values : List (String × Val)
  deriving DecidableEq, Repr

/-- The Python exceptions that can arise in the worker pipeline. -/
inductive PyErr where
  | keyError (key : String)
  | valueError (msg : String)
  | typeError
  | otherError
  deriving DecidableEq, Repr

/-- Python `user.values[k]`: dict lookup, raising `KeyError` when absent. -/
def getValue (u : Record) (k : String) : Except PyErr Val :=
  match u.values.lookup k with
  | some v => .ok v
  | none => .error (.keyError k)

/-- Python `user.values[k] = v`: dict assignment (lines 103-106). -/
def setValue (u : Record) (k : String) (v : Val) : Record :=
  { u with values := (k, v) :: u.values.filter (fun p => p.1 ≠ k) }

/-- A hospital record as consumed by the worker loop: a dict with an
`attributes` dict inside (lines 149-153). -/
structure Hospital where
  attributes : List (String × String)
  deriving DecidableEq, Repr

/-- Python `hosp["attributes"][k]`: raises `KeyError` when the key is absent. -/
def getAttr (h : Hospital) (k : String) : Except PyErr String :=
  match h.attributes.lookup k with
  | some v => .ok v
  | none => .error (.keyError k)

/-- The per-hospital text appended to the instructions, lines 148-153:
`f-string` pieces for NAME, ADDRESS, CITY, STATE, ZIP. -/
def hospLine (h : Hospital) : Except PyErr String := do
  let name ← getAttr h "NAME"
  let addr ← getAttr h "ADDRESS"
  let city ← getAttr h "CITY"
  let st ← getAttr h "STATE"
  let zp ← getAttr h "ZIP"
  return name ++ " \n " ++ addr ++ " \n " ++ city ++ ", " ++ st ++ "  " ++ zp ++ "\n\n"

/-- The external collaborators invoked by the pipeline (the matcher calls
on lines 142-145 and the Twilio send on line 154).  They live outside
`application.py`; each call may succeed or raise. -/
structure Externals where
  getHospitals : String → Nat → Except PyErr (List Hospital)
  getWeights : String → String → List Hospital → Except PyErr (List Int)
  makeChoice : List Hospital → List Int → Except PyErr (List Hospital)
  sendMessage : String → String → Except PyErr Unit

/-- One pass of the body of the inner `try` of `do_work`, lines 139-155:
read the instructions, optionally perform the hospital match and append
the formatted hospital list, then send the message to the phone number.
Returns the message body and destination on success, or the first raised
exception. -/
def runPipelineOnce (ext : Externals) (radius : Nat) (u : Record) :
    Except PyErr (String × String) := do
  let instrV ← getValue u "triage_instructions"
  let getHosp ← getValue u "get_hospital"
  let instructions ←
    if truthy getHosp then do
      let zipV ← getValue u "zip_code"
      let userZip := pyStr zipV
      let hospitals ← ext.getHospitals userZip radius
      let tcodeV ← getValue u "triage_code"
      let weights ← ext.getWeights userZip (pyStr tcodeV) hospitals
      let selected ← ext.makeChoice hospitals weights
      let lines ← selected.mapM hospLine
      pure (pyStr instrV ++ "\n\nPlease choose one of the following care centers:\n " ++
        String.join lines)
    else
      pure (pyStr instrV)
  let phoneV ← getValue u "phone_number"
  let _ ← ext.sendMessage instructions (pyStr phoneV)
  return (instructions, pyStr phoneV)

/-- The `except KeyError` handler, line 160:
`print("Value not found: ...".format(ke.with_traceback()), file=sys.stderr)`.
`ke.with_traceback()` is invoked without its required traceback argument,
so the format call never completes: a `TypeError` is raised before
anything is printed.  On success it would return the printed line. -/
def handleKeyError (_key : String) : Except PyErr String :=
  .error .typeError

/-- Outcome of one iteration of the inner `while True` loop of `do_work`
(lines 137-161) on a record. -/
inductive IterResult where
  /-- The message was sent and `break` reached (line 155). -/
  | sent (body target : String)
  /-- Case `except ValueError`: the error line is printed to stderr and the
  worker sleeps one second, then retries from the top (lines 156-158). -/
  | retry (logLine : String)
  /-- Case `except KeyError` where the handler completed: log and `break`
  (lines 159-161). -/
  | brk (logLine : String)
  /-- An exception escaped the inner loop (caught by the outer bare
  `except`, line 162). -/
  | escape (e : PyErr)
  deriving DecidableEq, Repr

/-- One inner-loop iteration: run the pipeline and dispatch on the raised
exception exactly as the handlers on lines 156-161 do. -/
def innerIter (ext : Externals) (radius : Nat) (u : Record) : IterResult :=
  match runPipelineOnce ext radius u with
  | .ok (body, target) => .sent body target
  | .error (.valueError msg) => .retry ("Error: " ++ msg)
  | .error (.keyError k) =>
      match handleKeyError k with
      | .ok line => .brk line
      | .error e => .escape e
  | .error e => .escape e

/-- Result of running the inner retry loop with bounded fuel. -/
inductive LoopResult where
  /-- Broke out of the loop with the message sent at attempt index
  `attempts` (so `attempts` earlier passes failed and were retried). -/
  | delivered (attempts : Nat) (body target : String)
  /-- Abandoned via `break` in the KeyError handler at attempt `attempts`. -/
  | abandoned (attempts : Nat) (logLine : String)
  /-- An exception escaped the inner loop at attempt `attempts`. -/
  | escaped (attempts : Nat) (e : PyErr)
  /-- Still retrying when the fuel ran out (the source loop has no cap). -/
  | running
  deriving DecidableEq, Repr

/-- The inner `while True` retry loop of `do_work`, fuel-indexed; the
externals may differ per attempt (`exts n` is the world seen by attempt
`n`), which models transient downstream failures. -/
def innerLoop (exts : Nat → Externals) (radius : Nat) (u : Record) :
    Nat → Nat → LoopResult
  | 0, _ => .running
  | fuel + 1, attempt =>
      match innerIter (exts attempt) radius u with
      | .sent body target => .delivered attempt body target
      | .retry _ => innerLoop exts radius u fuel (attempt + 1)
      | .brk line => .abandoned attempt line
      | .escape e => .escaped attempt e

/-! ## The worker threads and the Work-Available Coordinator

`application.py` spawns exactly two worker threads (line 168,
`range(2)`), each running `do_work`.  All of `do_work`s body executes
inside `with work_available_condition:` (line 134): the lock is acquired
before `popleft` and is held until the `with` block is exited.  We model
the system as a deterministic labelled transition system with one step
per atomic action; the two workers are identified by a `Bool`. -/

/-- The control points of a worker running `do_work` (lines 132-163). -/
inductive Phase where
  /-- At the top of the outer loop, about to enter
  `with work_available_condition:` (line 134): blocked until the lock is
  free. -/
  | acquire
  /-- Holding the lock, about to execute `to_respond_queue.popleft()`
  (line 136). -/
  | popTry
  /-- Holding the lock, at the top of the inner retry loop with record
  `u`, about to run attempt number `n` of the pipeline (line 137). -/
  | pipe (u : Record) (n : Nat)
  /-- Holding the lock, inside `time.sleep(1)` after a `ValueError`
  (line 158), having completed failed attempt `n` on record `u`. -/
  | sleepRetry (u : Record) (n : Nat)
  /-- Suspended inside `work_available_condition.wait()` (line 163): the
  lock has been released; only a `notify` from the producer can move the
  worker on. -/
  | waiting
  /-- Signalled by `notify`: to return from `wait()` the worker must
  first re-acquire the lock. -/
  | wakePending
  /-- Point where `wait()` has returned (lock re-acquired); the `with` block is about
  to exit, releasing the lock, and the outer loop restarts. -/
  | wokeInWait
  deriving DecidableEq, Repr

/-- Global state shared by the two worker threads and the producer:
`to_respond_queue`, the owner of `work_available_condition`s lock
(`none` when free, `some false` or `some true` for worker A or B), the
two workers control points, the log of Twilio sends (body, target) and
the stderr log lines actually printed. -/
structure SysState where
  queue : List Record
  lockHeld : Option Bool
  wA : Phase
  wB : Phase
  sent : List (String × String)
  errlog : List String
  deriving DecidableEq, Repr

/-- The phase of worker `w`. -/
def getW (w : Bool) (s : SysState) : Phase :=
  if w then s.wB else s.wA

/-- Replace the phase of worker `w`. -/
def setW (w : Bool) (ph : Phase) (s : SysState) : SysState :=
  if w then { s with wB := ph } else { s with wA := ph }

/-- One atomic step of worker `w` running `do_work`.  `none` means the
worker cannot move (blocked acquiring the lock, or suspended in `wait`).
The externals seen by attempt `n` of the pipeline are `exts n`. -/
def stepW (exts : Nat → Externals) (radius : Nat) (w : Bool) (s : SysState) :
    Option SysState :=
  match getW w s with
  | .acquire =>
      -- line 134: entering the with-block blocks until the lock is free
      match s.lockHeld with
      | none => some (setW w .popTry { s with lockHeld := some w })
      | some _ => none
  | .popTry =>
      if s.lockHeld = some w then
        match s.queue with
        | [] =>
            -- popleft on an empty deque raises IndexError; the bare
            -- except (line 162) catches it and calls wait(), which
            -- releases the lock and suspends (line 163)
            some (setW w .waiting { s with lockHeld := none })
        | u :: rest =>
            -- the head is removed; the inner loop starts (line 137)
            some (setW w (.pipe u 0) { s with queue := rest })
      else none
  | .pipe u n =>
      if s.lockHeld = some w then
        match innerIter (exts n) radius u with
        | .sent body target =>
            -- break (line 155), inner loop ends, with-block exits and
            -- releases the lock, outer loop restarts
            some (setW w .acquire
              { s with lockHeld := none, sent := s.sent ++ [(body, target)] })
        | .retry logLine =>
            -- line 157 prints, line 158 sleeps -- still under the lock
            some (setW w (.sleepRetry u n) { s with errlog := s.errlog ++ [logLine] })
        | .brk logLine =>
            -- KeyError handler printed and broke (lines 160-161)
            some (setW w .acquire
              { s with lockHeld := none, errlog := s.errlog ++ [logLine] })
        | .escape _ =>
            -- the exception escapes the inner loop; the bare except
            -- (line 162) catches it and wait() releases and suspends
            some (setW w .waiting { s with lockHeld := none })
      else none
  | .sleepRetry u n =>
      if s.lockHeld = some w then
        -- sleep finished; back to the top of the inner loop
        some (setW w (.pipe u (n + 1)) s)
      else none
  | .waiting => none
  | .wakePending =>
      -- returning from wait() requires re-acquiring the lock
      match s.lockHeld with
      | none => some (setW w .wokeInWait { s with lockHeld := some w })
      | some _ => none
  | .wokeInWait =>
      -- wait() returned inside the bare except; the with-block exits,
      -- releasing the lock, and the outer loop restarts (re-checks)
      if s.lockHeld = some w then
        some (setW w .acquire { s with lockHeld := none })
      else none

/-- The enqueue critical section of `verdict`, lines 107-109:
`with work_available_condition: to_respond_queue.append(user);
work_available_condition.notify()`.  It blocks (`none`) while a worker
holds the lock; `notify()` wakes one waiting worker, if any. -/
def stepEnq (r : Record) (s : SysState) : Option SysState :=
  match s.lockHeld with
  | some _ => none
  | none =>
      if s.wA = .waiting then
        some { s with queue := s.queue ++ [r], wA := .wakePending }
      else if s.wB = .waiting then
        some { s with queue := s.queue ++ [r], wB := .wakePending }
      else
        some { s with queue := s.queue ++ [r] }

/-- Reachability by worker steps and producer enqueues. -/
inductive Reach (exts : Nat → Externals) (radius : Nat) (s0 : SysState) : SysState → Prop where
  | refl : Reach exts radius s0 s0
  | step (w : Bool) {t t' : SysState} (h : Reach exts radius s0 t)
      (hs : stepW exts radius w t = some t') : Reach exts radius s0 t'
  | enq (r : Record) {t t' : SysState} (h : Reach exts radius s0 t)
      (hs : stepEnq r t = some t') : Reach exts radius s0 t'

/-- Phases in which a worker is inside the `with` block and must own the
lock: checking/removing the head, running the pipeline, sleeping between
retries, or returning from `wait`. -/
def holdsPhase : Phase → Bool
  | .popTry => true
  | .pipe _ _ => true
  | .sleepRetry _ _ => true
  | .wokeInWait => true
  | _ => false

/-- Lock discipline invariant: a worker inside the critical section is
the lock owner, and a worker suspended in `wait()` is not. -/
def lockInv (s : SysState) : Prop :=
  ∀ v : Bool, (holdsPhase (getW v s) = true → s.lockHeld = some v) ∧
    (getW v s = .waiting → s.lockHeld ≠ some v)

instance (s : SysState) : Decidable (lockInv s) := by
  unfold lockInv; infer_instance

/-! ## The producer side: the web routes -/

/-- State of the web layer: `user_queue` (the Intake Admission Queue,
line 17), the user-model repository `user_model_repo.users` keyed by
phone number, and the Flask session (`user_uuid`, `user_vals`). -/
structure WebState where
  userQueue : List Record
  repo : List (String × Record)
  session : Option (String × List (String × Val))
  deriving DecidableEq, Repr

/-- The triage-instruction table of `get_triage_instructions`, lines
115-125: disposition code to (resolution text, hospital-lookup flag). -/
def triageResponses : List (String × String × Bool) :=
  [("home", ("Stay at home, rest, and take medication as necessary", false)),
   ("LEVEL 1", ("Please seek Triage Level 1 assistance; you will be provided with a list of nearby hospitals/clinics:", true)),
   ("LEVEL 2", ("Please seek Triage Level 2 assistance; you will be provided with a list of nearby hospitals/clinics:", true)),
   ("LEVEL 3", ("Please seek Triage Level 3 assistance; you will be provided with a list of nearby hospitals/clinics:", true)),
   ("LEVEL 4", ("Please seek Triage Level 4 assistance; you will be provided with a list of nearby hospitals/clinics:", true)),
   ("gettest", ("Please get tested for COVID-19; you will be provided with a list of nearby testing locations:", false)),
   ("checkinlater8", ("Please stay put and text back in 8 hours", false)),
   ("checkinlater16", ("Please stay put and text back in 16 hours", false)),
   ("checkinlater24", ("Please stay put and text back in 24 hours", false))]

/-- Function `get_triage_instructions` (lines 113-129): look the code up in the
table; an unknown code yields `(None, None)`, modelled as `none`. -/
def get_triage_instructions (triage_code : String) : Option (String × Bool) :=
  triageResponses.lookup triage_code

/-- Modelled from the spec: `models.py` is not part of the source under
verification.  `user_model_repo.get_or_create(number)` returns the stored
Record for the identity, or a fresh one (empty attribute map) which it
also stores. -/
def getOrCreate (repo : List (String × Record)) (num : String) :
    Record × List (String × Record) :=
  match repo.lookup num with
  | some u => (u, repo)
  | none => (⟨num, []⟩, (num, ⟨num, []⟩) :: repo)

/-- Modelled from the spec: `user_model_repo.delete(number)` removes the
identity from the pending-intake record store. -/
def repoDelete (repo : List (String × Record)) (num : String) :
    List (String × Record) :=
  repo.filter (fun p => p.1 ≠ num)

/-- Observable effects of a `verdict` request, in program order. -/
inductive Effect where
  /-- Effect `to_respond_queue.append(user)` (line 108). -/
  | appendDispatch (uuid : String)
  /-- Effect `work_available_condition.notify()` (line 109). -/
  | notifyCond
  /-- Effect `user_model_repo.delete(user_number)` (line 110). -/
  | repoDelete (uuid : String)
  /-- Effect `user_queue.appendleft(...)` (line 99). -/
  | appendLeftIntake (uuid : String)
  deriving DecidableEq, Repr

/-- The `/verdict` handler, lines 85-111.  Returns the new web state, the
new shared dispatch state, and the ordered effect trace; `none` models a
crash (KeyError on line 99) or blocking forever on the coordinator lock. -/
def verdict (st : WebState) (disp : SysState) (triage_code user_number : String) :
    Option (WebState × SysState × List Effect) :=
  -- lines 88-89: the session is cleared
  let st1 := { st with session := none }
  match get_triage_instructions triage_code with
  | none =>
      -- line 99: requeue to the front of user_queue, taking the record
      -- from the repo (KeyError if absent)
      match st1.repo.lookup user_number with
      | none => none
      | some u =>
          some ({ st1 with userQueue := u :: st1.userQueue }, disp,
            [.appendLeftIntake user_number])
  | some (instr, getHosp) =>
      -- lines 102-106: fetch-or-create the user and attach the
      -- disposition fields
      let (u0, repo1) := getOrCreate st1.repo user_number
      let u1 := setValue u0 "phone_number" (.str user_number)
      let u2 := setValue u1 "triage_code" (.str triage_code)
      let u3 := setValue u2 "triage_instructions" (.str instr)
      let u4 := setValue u3 "get_hospital" (.bool getHosp)
      -- lines 107-109: append + notify under the lock ...
      match stepEnq u4 disp with
      | none => none
      | some disp' =>
          -- ... and only afterwards, line 110: delete from the repo
          some ({ st1 with repo := repoDelete repo1 user_number }, disp',
            [.appendDispatch u4.uuid, .notifyCond, .repoDelete user_number])

/-- The `/triage` page handler, lines 52-66: when the session holds no
user and the queue is nonempty, pop the head into the session. -/
def triaging (st : WebState) : WebState :=
  if st.userQueue.length > 0 || st.session.isSome then
    if st.session.isNone then
      match st.userQueue with
      | [] => st
      | u :: rest => { st with userQueue := rest, session := some (u.uuid, u.values) }
    else st
  else st

/-- The completion branch of the `/sms` handler, line 81:
`user_queue.append(user_model_repo.users[phone_number])` once intake is
complete.  `none` models the KeyError when the number is absent. -/
def smsComplete (st : WebState) (phone : String) : Option WebState :=
  match st.repo.lookup phone with
  | none => none
  | some u => some { st with userQueue := st.userQueue ++ [u] }

/-- Operation `deque.popleft()` on the intake queue (line 59). -/
def popleft (q : List Record) : Option (Record × List Record) :=
  match q with
  | [] => none
  | u :: rest => some (u, rest)

/-- Operation `to_respond_queue.append(user)` viewed as a pure queue operation
(line 108): append at the tail. -/
def enqueueTail (q : List Record) (r : Record) : List Record := q ++ [r]

/-- Repeated `popleft` until the queue is empty, collecting the dequeued
records in order: the observation order of the Dispatch Queue. -/
def drain : List Record → List Record
  | [] => []
  | u :: rest => u :: drain rest

/-! ## Concrete fixtures used in witnesses and counterexamples -/

/-- External world in which every downstream call succeeds (and the
matcher returns no hospitals). -/
def okExt : Externals :=
  { getHospitals := fun _ _ => .ok []
    getWeights := fun _ _ _ => .ok []
    makeChoice := fun _ _ => .ok []
    sendMessage := fun _ _ => .ok () }

/-- External world in which the Twilio send raises a `ValueError`
(a transient, retryable failure). -/
def failSendExt : Externals :=
  { okExt with sendMessage := fun _ _ => .error (.valueError "twilio rejected the request") }

/-- Attempt-indexed externals: every attempt succeeds. -/
def okExts : Nat → Externals := fun _ => okExt

/-- Attempt-indexed externals: the notifier fails (transiently) on the
first `k` attempts and succeeds from attempt `k` on. -/
def failNotifyK (k : Nat) : Nat → Externals :=
  fun n => if n < k then failSendExt else okExt

/-- Attempt-indexed externals: the notifier fails on every attempt. -/
def alwaysFailNotify : Nat → Externals := fun _ => failSendExt

/-- A fully-formed record that needs no hospital lookup. -/
def rGood : Record :=
  ⟨"5550001", [("triage_instructions", .str "Stay at home, rest, and take medication as necessary"),
               ("get_hospital", .bool false),
               ("phone_number", .str "5550001")]⟩

/-- A second fully-formed record, queued behind others in scenarios. -/
def rNext : Record :=
  ⟨"5550002", [("triage_instructions", .str "Please stay put and text back in 8 hours"),
               ("get_hospital", .bool false),
               ("phone_number", .str "5550002")]⟩

/-- A record that requires the hospital lookup but is missing the
required `zip_code` attribute: the pipeline raises `KeyError`. -/
def rBad : Record :=
  ⟨"5550003", [("triage_instructions", .str "Please seek Triage Level 1 assistance; you will be provided with a list of nearby hospitals/clinics:"),
               ("get_hospital", .bool true),
               ("phone_number", .str "5550003")]⟩

/-- A record triaged with the "gettest" code: the resolution text
promises a list of testing locations but `get_hospital` is `False`. -/
def rGettest : Record :=
  ⟨"5550004", [("triage_instructions", .str "Please get tested for COVID-19; you will be provided with a list of nearby testing locations:"),
               ("get_hospital", .bool false),
               ("phone_number", .str "5550004"),
               ("zip_code", .str "02139")]⟩

/-- Dispatch-side state with an empty queue, the lock free, and both
workers at the top of their loops. -/
def emptyDisp : SysState := ⟨[], none, .acquire, .acquire, [], []⟩

/-! ## Helper lemmas about the embedding -/

theorem getW_setW_self (w : Bool) (ph : Phase) (s : SysState) :
    getW w (setW w ph s) = ph := by
  cases w <;> rfl

theorem setW_queue (w : Bool) (ph : Phase) (s : SysState) :
    (setW w ph s).queue = s.queue := by
  cases w <;> rfl

theorem setW_lockHeld (w : Bool) (ph : Phase) (s : SysState) :
    (setW w ph s).lockHeld = s.lockHeld := by
  cases w <;> rfl

theorem setW_sent (w : Bool) (ph : Phase) (s : SysState) :
    (setW w ph s).sent = s.sent := by
  cases w <;> rfl

theorem setW_errlog (w : Bool) (ph : Phase) (s : SysState) :
    (setW w ph s).errlog = s.errlog := by
  cases w <;> rfl

/-- The enqueue critical section always appends to the tail of the
Dispatch Queue. -/
theorem stepEnq_queue (r : Record) (s s' : SysState)
    (h : stepEnq r s = some s') : s'.queue = s.queue ++ [r] := by
  unfold stepEnq at h
  split at h
  · exact absurd h (by simp)
  · split at h
    · cases h; rfl
    · split at h
      · cases h; rfl
      · cases h; rfl

/-- A worker step never grows the Dispatch Queue: it leaves it unchanged
or removes the head.  In particular a worker never re-enqueues the
record it owns. -/
theorem stepW_queue_shrinks (e : Nat → Externals) (rad : Nat) (w : Bool)
    (s s' : SysState) (h : stepW e rad w s = some s') :
    s'.queue = s.queue ∨ ∃ r, s.queue = r :: s'.queue := by
  unfold stepW at h
  split at h
  · split at h
    · cases h; exact .inl (setW_queue ..)
    · exact absurd h (by simp)
  · split at h
    · split at h
      · cases h; exact .inl (setW_queue ..)
      · cases h
        rename_i u rest heq
        exact .inr ⟨u, by rw [setW_queue]; exact heq⟩
    · exact absurd h (by simp)
  · split at h
    · split at h
      · cases h; exact .inl (setW_queue ..)
      · cases h; exact .inl (setW_queue ..)
      · cases h; exact .inl (setW_queue ..)
      · cases h; exact .inl (setW_queue ..)
    · exact absurd h (by simp)
  · split at h
    · cases h; exact .inl (setW_queue ..)
    · exact absurd h (by simp)
  · exact absurd h (by simp)
  · split at h
    · cases h; exact .inl (setW_queue ..)
    · exact absurd h (by simp)
  · split at h
    · cases h; exact .inl (setW_queue ..)
    · exact absurd h (by simp)

theorem getW_setW_ne (v w : Bool) (ph : Phase) (s : SysState) (hv : v ≠ w) :
    getW v (setW w ph s) = getW v s := by
  cases v <;> cases w <;> simp_all [getW, setW]

theorem getW_update (v : Bool) (s : SysState) (L : Option Bool)
    (q : List Record) (sn : List (String × String)) (el : List String) :
    getW v { s with lockHeld := L, queue := q, sent := sn, errlog := el } = getW v s := by
  cases v <;> rfl

/-- Invariant preservation when a step keeps the lock owned by `w` and
moves `w` to another in-critical-section phase. -/
theorem lockInv_keep (s : SysState) (w : Bool) (ph : Phase) (q : List Record)
    (sn : List (String × String)) (el : List String)
    (hinv : lockInv s) (hlock : s.lockHeld = some w) (hph : ph ≠ Phase.waiting) :
    lockInv (setW w ph { s with queue := q, sent := sn, errlog := el }) := by
  intro v
  by_cases hv : v = w
  · subst hv
    refine ⟨fun _ => ?_, fun hw => ?_⟩
    · rw [setW_lockHeld]; exact hlock
    · rw [getW_setW_self] at hw; exact absurd hw hph
  · refine ⟨fun hp => ?_, fun hw => ?_⟩
    · rw [getW_setW_ne _ _ _ _ hv] at hp
      have hp' : holdsPhase (getW v s) = true := by
        simpa [getW_update] using hp
      have := (hinv v).1 hp'
      rw [setW_lockHeld]; exact this
    · rw [getW_setW_ne _ _ _ _ hv] at hw
      have hw' : getW v s = Phase.waiting := by
        simpa [getW_update] using hw
      have := (hinv v).2 hw'
      rw [setW_lockHeld]; exact this

/-- Invariant preservation when the worker `w` that owned the lock
releases it (end of the `with` block, or entry into `wait`). -/
theorem lockInv_release (s : SysState) (w : Bool) (ph : Phase) (q : List Record)
    (sn : List (String × String)) (el : List String)
    (hinv : lockInv s) (hlock : s.lockHeld = some w) (hph : holdsPhase ph = false) :
    lockInv (setW w ph { s with lockHeld := none, queue := q, sent := sn, errlog := el }) := by
  intro v
  by_cases hv : v = w
  · subst hv
    refine ⟨fun hp => ?_, fun _ => ?_⟩
    · rw [getW_setW_self] at hp; rw [hph] at hp; cases hp
    · rw [setW_lockHeld]; simp
  · refine ⟨fun hp => ?_, fun _ => ?_⟩
    · rw [getW_setW_ne _ _ _ _ hv] at hp
      have hp' : holdsPhase (getW v s) = true := by
        simpa [getW_update] using hp
      have h2 := (hinv v).1 hp'
      rw [hlock] at h2
      exact absurd (Option.some.inj h2).symm hv
    · rw [setW_lockHeld]; simp

/-- Invariant preservation when worker `w` acquires the free lock. -/
theorem lockInv_acquire (s : SysState) (w : Bool) (ph : Phase) (q : List Record)
    (sn : List (String × String)) (el : List String)
    (hinv : lockInv s) (hlock : s.lockHeld = none) (hph : ph ≠ Phase.waiting) :
    lockInv (setW w ph { s with lockHeld := some w, queue := q, sent := sn, errlog := el }) := by
  intro v
  by_cases hv : v = w
  · subst hv
    refine ⟨fun _ => ?_, fun hw => ?_⟩
    · rw [setW_lockHeld]
    · rw [getW_setW_self] at hw; exact absurd hw hph
  · refine ⟨fun hp => ?_, fun hw => ?_⟩
    · rw [getW_setW_ne _ _ _ _ hv] at hp
      have hp' : holdsPhase (getW v s) = true := by
        simpa [getW_update] using hp
      have h2 := (hinv v).1 hp'
      rw [hlock] at h2; cases h2
    · rw [setW_lockHeld]
      intro hc
      exact hv (Option.some.inj hc).symm

/-- Every worker step preserves the lock discipline invariant. -/
theorem stepW_preserves_lockInv (e : Nat → Externals) (rad : Nat) (w : Bool)
    (s s' : SysState) (hinv : lockInv s) (h : stepW e rad w s = some s') :
    lockInv s' := by
  unfold stepW at h
  split at h
  · -- acquire
    split at h
    · rename_i hlock
      cases h
      exact lockInv_acquire s w .popTry _ _ _ hinv hlock (by simp)
    · exact absurd h (by simp)
  · -- popTry
    split at h
    · rename_i hlock
      split at h
      · cases h
        exact lockInv_release s w .waiting _ _ _ hinv hlock rfl
      · cases h
        rename_i u rest heq
        exact lockInv_keep s w (.pipe u 0) _ _ _ hinv hlock (by simp)
    · exact absurd h (by simp)
  · -- pipe
    rename_i u n heq
    split at h
    · rename_i hlock
      split at h
      · cases h
        exact lockInv_release s w .acquire _ _ _ hinv hlock rfl
      · cases h
        exact lockInv_keep s w (.sleepRetry u n) _ _ _ hinv hlock (by simp)
      · cases h
        exact lockInv_release s w .acquire _ _ _ hinv hlock rfl
      · cases h
        exact lockInv_release s w .waiting _ _ _ hinv hlock rfl
    · exact absurd h (by simp)
  · -- sleepRetry
    rename_i u n heq
    split at h
    · rename_i hlock
      cases h
      exact lockInv_keep s w (.pipe u (n + 1)) _ _ _ hinv hlock (by simp)
    · exact absurd h (by simp)
  · -- waiting
    exact absurd h (by simp)
  · -- wakePending
    split at h
    · rename_i hlock
      cases h
      exact lockInv_acquire s w .wokeInWait _ _ _ hinv hlock (by simp)
    · exact absurd h (by simp)
  · -- wokeInWait
    split at h
    · rename_i hlock
      cases h
      exact lockInv_release s w .acquire _ _ _ hinv hlock rfl
    · exact absurd h (by simp)

/-- Every producer enqueue preserves the lock discipline invariant. -/
theorem stepEnq_preserves_lockInv (r : Record) (s s' : SysState)
    (hinv : lockInv s) (h : stepEnq r s = some s') : lockInv s' := by
  have hl : s.lockHeld = none := by
    cases hl : s.lockHeld with
    | none => rfl
    | some v => exfalso; unfold stepEnq at h; rw [hl] at h; cases h
  have hph : ∀ v : Bool, holdsPhase (getW v s) = false := by
    intro v
    cases hp : holdsPhase (getW v s) with
    | false => rfl
    | true =>
        exfalso
        have := (hinv v).1 hp
        rw [this] at hl; cases hl
  have hnone : ∀ X : SysState, X.lockHeld = none →
      (∀ v : Bool, holdsPhase (getW v X) = false) → lockInv X := by
    intro X h1 h2 v
    refine ⟨fun hp => ?_, fun _ => ?_⟩
    · rw [h2 v] at hp; cases hp
    · rw [h1]; simp
  unfold stepEnq at h
  rw [hl] at h
  by_cases hA : s.wA = Phase.waiting
  · rw [if_pos hA] at h
    cases h
    refine hnone _ rfl ?_
    intro v
    cases v
    · simp [getW, holdsPhase]
    · simpa [getW] using hph true
  · rw [if_neg hA] at h
    by_cases hB : s.wB = Phase.waiting
    · rw [if_pos hB] at h
      cases h
      refine hnone _ rfl ?_
      intro v
      cases v
      · simpa [getW] using hph false
      · simp [getW, holdsPhase]
    · rw [if_neg hB] at h
      cases h
      refine hnone _ rfl ?_
      intro v
      cases v
      · simpa [getW] using hph false
      · simpa [getW] using hph true

/-- The lock discipline invariant holds in every reachable state. -/
theorem reach_lockInv (e : Nat → Externals) (rad : Nat) (s0 s : SysState)
    (h0 : lockInv s0) (hr : Reach e rad s0 s) : lockInv s := by
  induction hr with
  | refl => exact h0
  | step w h hs ih => exact stepW_preserves_lockInv _ _ _ _ _ ih hs
  | enq r h hs ih => exact stepEnq_preserves_lockInv _ _ _ ih hs

/-- Evaluation of one pipeline pass for a record that does not require
the hospital lookup: the message is exactly the stored instruction text
and the outcome is that of the notifier call. -/
theorem runPipelineOnce_no_hospital (ext : Externals) (radius : Nat) (u : Record)
    (instr phone : String)
    (h1 : getValue u "triage_instructions" = .ok (.str instr))
    (h2 : getValue u "get_hospital" = .ok (.bool false))
    (h3 : getValue u "phone_number" = .ok (.str phone)) :
    runPipelineOnce ext radius u =
      (ext.sendMessage instr phone).map (fun _ => (instr, phone)) := by
  unfold runPipelineOnce
  rw [h1, h2]
  simp only [truthy, Bool.false_eq_true, if_false, pyStr]
  rw [h3]
  cases hs : ext.sendMessage instr phone <;>
    simp [hs, Except.map, Except.bind, pyStr, bind, pure, Except.pure]

/-- With a notifier that fails transiently on the first `k` attempts and
then succeeds, the inner retry loop delivers the message at attempt `k`
(after exactly `k` failed passes), given enough fuel. -/
theorem innerLoop_failK_delivers (k radius : Nat) (u : Record) (instr phone : String)
    (h1 : getValue u "triage_instructions" = .ok (.str instr))
    (h2 : getValue u "get_hospital" = .ok (.bool false))
    (h3 : getValue u "phone_number" = .ok (.str phone)) :
    ∀ fuel a, a ≤ k → k - a < fuel →
      innerLoop (failNotifyK k) radius u fuel a = .delivered k instr phone := by
  intro fuel
  induction fuel with
  | zero => intro a _ hf; omega
  | succ f ih =>
      intro a ha hf
      by_cases hak : a < k
      · have hext : failNotifyK k a = failSendExt := by simp [failNotifyK, hak]
        have hiter : innerIter (failNotifyK k a) radius u =
            .retry ("Error: " ++ "twilio rejected the request") := by
          unfold innerIter
          rw [runPipelineOnce_no_hospital _ radius _ _ _ h1 h2 h3, hext]
          rfl
        unfold innerLoop
        rw [hiter]
        exact ih (a + 1) (by omega) (by omega)
      · have hae : a = k := by omega
        subst hae
        have hext : failNotifyK a a = okExt := by simp [failNotifyK]
        have hiter : innerIter (failNotifyK a a) radius u = .sent instr phone := by
          unfold innerIter
          rw [runPipelineOnce_no_hospital _ radius _ _ _ h1 h2 h3, hext]
          rfl
        unfold innerLoop
        rw [hiter]

/-- If every attempt raises a transient `ValueError`, the inner loop is
still retrying whenever the fuel runs out: there is no retry cap and no
other exit. -/
theorem innerLoop_running_of_always_valueError (e' : Nat → Externals) (radius : Nat)
    (u : Record)
    (h : ∀ a, ∃ msg, runPipelineOnce (e' a) radius u = .error (.valueError msg)) :
    ∀ fuel a, innerLoop e' radius u fuel a = .running := by
  intro fuel
  induction fuel with
  | zero => intro a; rfl
  | succ f ih =>
      intro a
      obtain ⟨msg, hm⟩ := h a
      have hiter : innerIter (e' a) radius u = .retry ("Error: " ++ msg) := by
        unfold innerIter; rw [hm]
      unfold innerLoop
      rw [hiter]
      exact ih (a + 1)

/-- A lookup misses when the key is not among the stored keys. -/
theorem lookup_eq_none_of_not_mem {β : Type} (l : List (String × β)) (a : String)
    (h : a ∉ l.map Prod.fst) : l.lookup a = none := by
  induction l with
  | nil => rfl
  | cons p t ih =>
      obtain ⟨k, b⟩ := p
      simp only [List.map_cons, List.mem_cons] at h
      push_neg at h
      obtain ⟨h1, h2⟩ := h
      simp only [List.lookup]
      rw [beq_eq_false_iff_ne.mpr h1]
      exact ih h2

/-- Deleting an identity from the record store makes its lookup miss. -/
theorem lookup_repoDelete_self (repo : List (String × Record)) (num : String) :
    (repoDelete repo num).lookup num = none := by
  apply lookup_eq_none_of_not_mem
  intro hmem
  simp only [repoDelete, List.mem_map, List.mem_filter] at hmem
  obtain ⟨p, ⟨_, hp⟩, hfst⟩ := hmem
  rw [hfst] at hp
  simp at hp

/-- Deleting one identity leaves the lookup of any other unchanged. -/
theorem lookup_repoDelete_ne (repo : List (String × Record)) (num k : String)
    (h : k ≠ num) : (repoDelete repo num).lookup k = repo.lookup k := by
  unfold repoDelete
  induction repo with
  | nil => rfl
  | cons p t ih =>
      obtain ⟨k', r⟩ := p
      rw [List.filter_cons]
      by_cases hk : k' = num
      · rw [if_neg (by simp [hk])]
        rw [ih]
        have hkk : (k == k') = false := beq_eq_false_iff_ne.mpr (by rw [hk]; exact h)
        simp [List.lookup, hkk]
      · rw [if_pos (by simp [hk])]
        simp only [List.lookup]
        cases hkk : k == k' <;> simp only [hkk]
        exact ih

/-- Folding tail-appends from the empty queue lays the records out in
enqueue order. -/
theorem foldl_enqueueTail (rs : List Record) (acc : List Record) :
    rs.foldl enqueueTail acc = acc ++ rs := by
  induction rs generalizing acc with
  | nil => simp
  | cons r t ih => simp [List.foldl, enqueueTail, ih]

/-- Draining by repeated `popleft` observes the queue front to back. -/
theorem drain_eq (q : List Record) : drain q = q := by
  induction q with
  | nil => rfl
  | cons u rest ih => simp [drain, ih]

/-- While some worker owns the coordinator lock, the other worker cannot
take any step at all: every branch of `do_work` either needs to acquire
the lock or is suspended in `wait`. -/
theorem other_worker_blocked (e : Nat → Externals) (rad : Nat)
    (s : SysState) (w w' : Bool) (hlock : s.lockHeld = some w)
    (hne : w' ≠ w) : stepW e rad w' s = none := by
  have hot : s.lockHeld ≠ some w' := by
    rw [hlock]; intro hc; exact hne (Option.some.inj hc).symm
  unfold stepW
  split
  · rw [hlock]
  · rw [if_neg hot]
  · rw [if_neg hot]
  · rw [if_neg hot]
  · rfl
  · rw [hlock]
  · rw [if_neg hot]

/-! ## Claims -/

/-- C1: lock discipline of the blocking dequeue, as amended.  In every
state reachable from a state satisfying the lock-discipline invariant:
a worker checking emptiness / removing the head (`popTry`) owns the
exclusive lock, and so does a worker running the follow-up pipeline
(`pipe`) or sleeping between retries (`sleepRetry`) — the pipeline runs
while exclusive access is still held, it is NOT released after the head
is removed; a worker suspended in `wait` does not own the lock and
cannot step; popping an empty queue releases the lock and suspends the
worker; a signalled worker re-acquires the lock to return from `wait`
and then re-checks via the outer loop. -/
theorem worker_lock_discipline (e : Nat → Externals) (rad : Nat) (s0 s : SysState)
    (h0 : lockInv s0) (hr : Reach e rad s0 s) :
    lockInv s ∧
    (∀ w : Bool, getW w s = .popTry → s.queue = [] →
      stepW e rad w s = some (setW w .waiting { s with lockHeld := none })) ∧
    (∀ w : Bool, getW w s = .waiting → stepW e rad w s = none) ∧
    (∀ w : Bool, getW w s = .wakePending → s.lockHeld = none →
      stepW e rad w s = some (setW w .wokeInWait { s with lockHeld := some w })) := by
  have hinv := reach_lockInv e rad s0 s h0 hr
  refine ⟨hinv, ?_, ?_, ?_⟩
  · intro w hph hq
    have hlock : s.lockHeld = some w := (hinv w).1 (by rw [hph]; rfl)
    unfold stepW
    rw [hph, if_pos hlock, hq]
  · intro w hph
    unfold stepW
    rw [hph]
  · intro w hph hlock
    unfold stepW
    rw [hph, hlock]

/-- C1 witness: the lock-discipline consequence at the concrete initial
state with an empty queue and both workers idle. -/
theorem worker_lock_discipline_witness : lockInv emptyDisp :=
  (worker_lock_discipline okExts 50 emptyDisp emptyDisp (by decide) Reach.refl).1

/-- C1 counterexample to the claim as stated: from a state with one
queued record, worker A acquires the lock and removes the head; the
resulting state has worker A at the start of the follow-up pipeline
while the lock is STILL held (`lockHeld = some false`), and the next
step runs the pipeline (a transiently failing notify, hence a logged
retry and sleep) still under the lock — exclusive access is not
released between removing the head and running the pipeline. -/
theorem lock_not_released_before_pipeline_cex :
    stepW (failNotifyK 1) 50 false ⟨[rGood], none, .acquire, .acquire, [], []⟩ =
      some ⟨[rGood], some false, .popTry, .acquire, [], []⟩ ∧
    stepW (failNotifyK 1) 50 false ⟨[rGood], some false, .popTry, .acquire, [], []⟩ =
      some ⟨[], some false, .pipe rGood 0, .acquire, [], []⟩ ∧
    stepW (failNotifyK 1) 50 false ⟨[], some false, .pipe rGood 0, .acquire, [], []⟩ =
      some ⟨[], some false, .sleepRetry rGood 0, .acquire, [],
        ["Error: twilio rejected the request"]⟩ := by
  refine ⟨rfl, rfl, rfl⟩

/-- C2 (amended): with a notifier that fails transiently on exactly `k`
attempts and then succeeds, a dispatched record is delivered at attempt
`k` (bounded by `k` retries, one fixed delay each) and worker steps
never re-enqueue a record; but while the retrying worker owns the
coordinator lock the other worker cannot take any step at all, so other
records already in the Dispatch Queue ARE blocked until the retrying
record completes. -/
theorem transient_retry_liveness_and_blocking (k radius : Nat) (u : Record)
    (instr phone : String)
    (h1 : getValue u "triage_instructions" = .ok (.str instr))
    (h2 : getValue u "get_hospital" = .ok (.bool false))
    (h3 : getValue u "phone_number" = .ok (.str phone)) :
    innerLoop (failNotifyK k) radius u (k + 1) 0 = .delivered k instr phone ∧
    (∀ (e : Nat → Externals) (w w' : Bool) (s : SysState),
      s.lockHeld = some w → w' ≠ w → stepW e radius w' s = none) ∧
    (∀ (e : Nat → Externals) (w : Bool) (s s' : SysState),
      stepW e radius w s = some s' →
      s'.queue = s.queue ∨ ∃ r, s.queue = r :: s'.queue) := by
  refine ⟨innerLoop_failK_delivers k radius u instr phone h1 h2 h3 (k + 1) 0
      (by omega) (by omega), ?_, ?_⟩
  · intro e w w' s hl hne
    exact other_worker_blocked e radius s w w' hl hne
  · intro e w s s' h
    exact stepW_queue_shrinks e radius w s s' h

/-- C2 witness: a notifier failing exactly once delivers the concrete
record at attempt 1. -/
theorem transient_retry_liveness_and_blocking_witness :
    innerLoop (failNotifyK 1) 50 rGood 2 0 =
      .delivered 1 "Stay at home, rest, and take medication as necessary" "5550001" :=
  (transient_retry_liveness_and_blocking 1 50 rGood
    "Stay at home, rest, and take medication as necessary" "5550001"
    rfl rfl rfl).1

/-- C2 counterexample to the claim as stated: worker A dequeues a
transiently failing record and enters its retry sleep while `rNext`
is still in the Dispatch Queue; because the retry holds the lock,
worker B — idle at the top of its loop — cannot take any step, and even
the producer's enqueue blocks: the other queued record IS blocked from
being dequeued while the retry is in progress. -/
theorem other_record_blocked_during_retry_cex :
    stepW (failNotifyK 1) 50 false ⟨[rGood, rNext], none, .acquire, .acquire, [], []⟩ =
      some ⟨[rGood, rNext], some false, .popTry, .acquire, [], []⟩ ∧
    stepW (failNotifyK 1) 50 false ⟨[rGood, rNext], some false, .popTry, .acquire, [], []⟩ =
      some ⟨[rNext], some false, .pipe rGood 0, .acquire, [], []⟩ ∧
    stepW (failNotifyK 1) 50 false ⟨[rNext], some false, .pipe rGood 0, .acquire, [], []⟩ =
      some ⟨[rNext], some false, .sleepRetry rGood 0, .acquire, [],
        ["Error: twilio rejected the request"]⟩ ∧
    stepW (failNotifyK 1) 50 true ⟨[rNext], some false, .sleepRetry rGood 0, .acquire, [],
        ["Error: twilio rejected the request"]⟩ = none ∧
    stepEnq rBad ⟨[rNext], some false, .sleepRetry rGood 0, .acquire, [],
        ["Error: twilio rejected the request"]⟩ = none := by
  refine ⟨rfl, rfl, rfl, rfl, rfl⟩

/-- C5: on a transient (`ValueError`) failure of the pipeline, the
worker logs the error line, moves into the fixed-delay sleep still
owning the record and the lock, and after the sleep retries the whole
pipeline from the top on the same record; worker steps never grow the
queue (the record is never re-enqueued); and with a notifier that fails
on every attempt the inner loop never delivers, never abandons and never
escapes — there is no retry cap. -/
theorem transient_failure_retry_in_place (e : Nat → Externals) (rad : Nat) (w : Bool)
    (u : Record) (n : Nat) (s : SysState) (msg : String)
    (hph : getW w s = .pipe u n) (hlock : s.lockHeld = some w)
    (hrun : runPipelineOnce (e n) rad u = .error (.valueError msg)) :
    stepW e rad w s = some (setW w (.sleepRetry u n)
      { s with errlog := s.errlog ++ ["Error: " ++ msg] }) ∧
    (∀ s1 : SysState, getW w s1 = .sleepRetry u n → s1.lockHeld = some w →
      stepW e rad w s1 = some (setW w (.pipe u (n + 1)) s1)) ∧
    (∀ (w' : Bool) (s2 s3 : SysState), stepW e rad w' s2 = some s3 →
      s3.queue = s2.queue ∨ ∃ r, s2.queue = r :: s3.queue) ∧
    (∀ (e' : Nat → Externals) (u' : Record),
      (∀ a, ∃ m, runPipelineOnce (e' a) rad u' = .error (.valueError m)) →
      ∀ fuel a, innerLoop e' rad u' fuel a = .running) := by
  refine ⟨?_, ?_, ?_, ?_⟩
  · have hiter : innerIter (e n) rad u = .retry ("Error: " ++ msg) := by
      unfold innerIter; rw [hrun]
    unfold stepW
    rw [hph]
    dsimp only
    rw [if_pos hlock, hiter]
  · intro s1 hp1 hl1
    unfold stepW
    rw [hp1]
    dsimp only
    rw [if_pos hl1]
  · intro w' s2 s3 h
    exact stepW_queue_shrinks e rad w' s2 s3 h
  · intro e' u' h fuel a
    exact innerLoop_running_of_always_valueError e' rad u' h fuel a

/-- C5 witness: the concrete retry transition on `rGood` under a
transiently failing notifier. -/
theorem transient_failure_retry_in_place_witness :
    stepW (failNotifyK 1) 50 false ⟨[], some false, .pipe rGood 0, .acquire, [], []⟩ =
      some ⟨[], some false, .sleepRetry rGood 0, .acquire, [],
        ["Error: " ++ "twilio rejected the request"]⟩ :=
  (transient_failure_retry_in_place (failNotifyK 1) 50 false rGood 0
    ⟨[], some false, .pipe rGood 0, .acquire, [], []⟩
    "twilio rejected the request" rfl rfl rfl).1

/-- C3 (evaluating the code at the failing input): for a dequeued record
whose attribute map lacks the required `zip_code` key (with the hospital
lookup required), the pipeline raises `KeyError`; the `except KeyError`
handler itself raises `TypeError` because `ke.with_traceback()` is called
without its required argument, so NOTHING is logged and `break` is never
reached; the exception escapes to the bare `except`, and the worker —
with another record still in the queue — discards the record, sends no
notification, logs nothing, and suspends in `wait()`, unable to step
until a producer signals: it does NOT proceed to dequeue the next
record. -/
theorem missing_key_blocks_worker_bug :
    runPipelineOnce okExt 50 rBad = .error (.keyError "zip_code") ∧
    handleKeyError "zip_code" = .error .typeError ∧
    innerIter okExt 50 rBad = .escape .typeError ∧
    stepW okExts 50 false ⟨[rNext], some false, .pipe rBad 0, .acquire, [], []⟩ =
      some ⟨[rNext], none, .waiting, .acquire, [], []⟩ ∧
    stepW okExts 50 false ⟨[rNext], none, .waiting, .acquire, [], []⟩ = none := by
  refine ⟨rfl, rfl, rfl, rfl, rfl⟩

/-- C9: any exception from the worker's pipeline other than `ValueError`
— the `TypeError` raised by the `KeyError` handler's bad
`with_traceback()` call, or any other non-`ValueError` error — is caught
by the bare `except`, which behaves exactly as the empty-queue path: the
record is silently discarded (queue, sent log and stderr log all
unchanged), the lock is released, and the worker suspends in `wait()`
even when the Dispatch Queue is non-empty; it cannot step on its own and
resumes (to `wakePending`) only when a producer enqueue signals the
condition. -/
theorem bare_except_discards_and_waits (e : Nat → Externals) (rad : Nat)
    (u : Record) (n : Nat) (err : PyErr) (s s1 : SysState) (w : Bool)
    (hph : getW w s = .pipe u n)
    (hlock : s.lockHeld = some w)
    (hrun : runPipelineOnce (e n) rad u = .error err)
    (hnV : ∀ msg, err ≠ .valueError msg)
    (hstep : stepW e rad w s = some s1) :
    getW w s1 = .waiting ∧ s1.lockHeld = none ∧ s1.queue = s.queue ∧
    s1.sent = s.sent ∧ s1.errlog = s.errlog ∧
    stepW e rad w s1 = none ∧
    (∀ r : Record, getW (!w) s1 ≠ .waiting →
      ∃ s2, stepEnq r s1 = some s2 ∧ getW w s2 = .wakePending ∧
        s2.queue = s1.queue ++ [r]) := by
  have hesc : ∃ er, innerIter (e n) rad u = .escape er := by
    cases err with
    | keyError k => exact ⟨.typeError, by unfold innerIter; rw [hrun]; rfl⟩
    | valueError m => exact absurd rfl (hnV m)
    | typeError => exact ⟨.typeError, by unfold innerIter; rw [hrun]⟩
    | otherError => exact ⟨.otherError, by unfold innerIter; rw [hrun]⟩
  obtain ⟨er, hiter⟩ := hesc
  have hs1 : s1 = setW w .waiting { s with lockHeld := none } := by
    unfold stepW at hstep
    rw [hph] at hstep
    dsimp only at hstep
    rw [if_pos hlock, hiter] at hstep
    exact (Option.some.inj hstep).symm
  subst hs1
  refine ⟨getW_setW_self w .waiting _, by rw [setW_lockHeld], by rw [setW_queue],
    by rw [setW_sent], by rw [setW_errlog], ?_, ?_⟩
  · unfold stepW
    rw [getW_setW_self]
  · intro r hother
    cases w
    · exact ⟨_, rfl, rfl, rfl⟩
    · have hA : ({ s with lockHeld := none, wB := Phase.waiting } : SysState).wA ≠
          Phase.waiting := by
        simpa [getW, setW] using hother
      have hse : stepEnq r (setW true Phase.waiting { s with lockHeld := none }) =
          some (setW true Phase.wakePending { s with lockHeld := none, queue := s.queue ++ [r] }) := by
        show stepEnq r { s with lockHeld := none, wB := Phase.waiting } = _
        unfold stepEnq
        dsimp only
        rw [if_neg hA, if_pos rfl]
        rfl
      exact ⟨_, hse, rfl, rfl⟩

/-- C9 witness: the concrete `TypeError`-from-`KeyError` escape on
`rBad` with another record still queued. -/
theorem bare_except_discards_and_waits_witness :
    getW false ⟨[rNext], none, .waiting, .acquire, [], []⟩ = .waiting ∧
    (⟨[rNext], none, .waiting, .acquire, [], []⟩ : SysState).queue = [rNext] ∧
    stepW okExts 50 false ⟨[rNext], none, .waiting, .acquire, [], []⟩ = none := by
  have h := bare_except_discards_and_waits okExts 50 rBad 0 (.keyError "zip_code")
    ⟨[rNext], some false, .pipe rBad 0, .acquire, [], []⟩
    ⟨[rNext], none, .waiting, .acquire, [], []⟩ false
    rfl rfl rfl (by intro msg hc; cases hc) rfl
  exact ⟨h.1, h.2.2.1, h.2.2.2.2.2.1⟩

/-- The uuids of the records currently in the Dispatch Queue. -/
def queueUuids (s : SysState) : List String := s.queue.map Record.uuid

theorem setValue_uuid (u : Record) (k : String) (v : Val) :
    (setValue u k v).uuid = u.uuid := rfl

/-- A successful lookup returns a stored pair. -/
theorem lookup_mem {β : Type} (l : List (String × β)) (a : String) (b : β)
    (h : l.lookup a = some b) : (a, b) ∈ l := by
  induction l with
  | nil => cases h
  | cons p t ih =>
      obtain ⟨k, v⟩ := p
      simp only [List.lookup] at h
      cases hk : a == k with
      | false => rw [hk] at h; exact List.mem_cons_of_mem _ (ih h)
      | true =>
          rw [hk] at h
          cases h
          have : a = k := eq_of_beq hk
          subst this
          exact List.mem_cons_self _ _

/-- The disposition codes present in the triage-instruction table. -/
def knownTriageCodes : List String :=
  ["home", "LEVEL 1", "LEVEL 2", "LEVEL 3", "LEVEL 4", "gettest",
   "checkinlater8", "checkinlater16", "checkinlater24"]

/-- A code outside the table yields no instructions. -/
theorem get_triage_instructions_unknown (code : String)
    (h : code ∉ knownTriageCodes) : get_triage_instructions code = none := by
  apply lookup_eq_none_of_not_mem
  have hkeys : triageResponses.map Prod.fst = knownTriageCodes := by rfl
  rw [hkeys]
  exact h

/-- C4 counterexample to the claim as stated: for a concrete known code,
`verdict` produces the effect trace append-to-Dispatch-Queue, notify,
and only THEN delete-from-record-store — the identity is removed from
the pending-intake record store AFTER the record is appended, not
before. -/
theorem verdict_appends_before_delete_cex :
    verdict ⟨[], [("5551234", ⟨"5551234", []⟩)], none⟩ emptyDisp "home" "5551234" =
      some (⟨[], [], none⟩,
        ⟨[⟨"5551234",
            [("get_hospital", .bool false),
             ("triage_instructions", .str "Stay at home, rest, and take medication as necessary"),
             ("triage_code", .str "home"),
             ("phone_number", .str "5551234")]⟩], none, .acquire, .acquire, [], []⟩,
        [.appendDispatch "5551234", .notifyCond, .repoDelete "5551234"]) := by
  rfl

/-- C4 (amended): at most one record per identity sits in the Dispatch
Queue, enforced by the producer removing the identity from the
pending-intake record store immediately AFTER appending the record (the
only effect traces of `verdict` are the front-requeue, or append-notify
followed by delete): provided the submitted identity is still in the
store and queue identities are disjoint from the store, a `verdict`
preserves both the duplicate-freedom of queued identities and their
absence from the store. -/
theorem dispatch_identity_unique (st : WebState) (disp : SysState)
    (code num : String) (u : Record) (st' : WebState) (disp' : SysState)
    (effs : List Effect)
    (hwf : ∀ k r, st.repo.lookup k = some r → r.uuid = k)
    (hnodup : (queueUuids disp).Nodup)
    (hdisj : ∀ r ∈ disp.queue, st.repo.lookup r.uuid = none)
    (hmem : st.repo.lookup num = some u)
    (hv : verdict st disp code num = some (st', disp', effs)) :
    (queueUuids disp').Nodup ∧
    (∀ r ∈ disp'.queue, st'.repo.lookup r.uuid = none) ∧
    (effs = [.appendLeftIntake num] ∨
     effs = [.appendDispatch num, .notifyCond, .repoDelete num]) := by
  have huuid : u.uuid = num := hwf num u hmem
  unfold verdict at hv
  cases hg : get_triage_instructions code with
  | none =>
      rw [hg] at hv
      dsimp only at hv
      rw [hmem] at hv
      dsimp only at hv
      simp only [Option.some.injEq, Prod.mk.injEq] at hv
      obtain ⟨h1, h2, h3⟩ := hv
      subst h1; subst h2; subst h3
      exact ⟨hnodup, hdisj, Or.inl rfl⟩
  | some p =>
      obtain ⟨instr, gh⟩ := p
      rw [hg] at hv
      dsimp only at hv
      have hgoc : getOrCreate st.repo num = (u, st.repo) := by
        unfold getOrCreate
        rw [hmem]
      rw [hgoc] at hv
      dsimp only at hv
      cases hse : stepEnq (setValue (setValue (setValue (setValue u "phone_number"
          (.str num)) "triage_code" (.str code)) "triage_instructions" (.str instr))
          "get_hospital" (.bool gh)) disp with
      | none => rw [hse] at hv; cases hv
      | some d' =>
          rw [hse] at hv
          dsimp only at hv
          simp only [Option.some.injEq, Prod.mk.injEq] at hv
          obtain ⟨h1, h2, h3⟩ := hv
          subst h1; subst h2; subst h3
          have hq' : d'.queue = disp.queue ++
              [setValue (setValue (setValue (setValue u "phone_number" (.str num))
                "triage_code" (.str code)) "triage_instructions" (.str instr))
                "get_hospital" (.bool gh)] := stepEnq_queue _ _ _ hse
          have h4 : (setValue (setValue (setValue (setValue u "phone_number" (.str num))
              "triage_code" (.str code)) "triage_instructions" (.str instr))
              "get_hospital" (.bool gh)).uuid = num := huuid
          have hnin : num ∉ queueUuids disp := by
            intro hm
            obtain ⟨r, hr, hru⟩ := List.mem_map.mp hm
            have hd := hdisj r hr
            rw [hru, hmem] at hd
            cases hd
          refine ⟨?_, ?_, Or.inr (by rw [h4])⟩
          · unfold queueUuids
            rw [hq', List.map_append]
            refine List.Nodup.append hnodup ?_ ?_
            · exact List.nodup_singleton _
            · intro a ha hb
              simp only [List.map_cons, List.map_nil, List.mem_singleton] at hb
              rw [hb, h4] at ha
              exact hnin ha
          · intro r hr
            rw [hq'] at hr
            rcases List.mem_append.mp hr with hr1 | hr2
            · show (repoDelete st.repo num).lookup r.uuid = none
              by_cases hru : r.uuid = num
              · rw [hru]; exact lookup_repoDelete_self st.repo num
              · rw [lookup_repoDelete_ne st.repo num r.uuid hru]
                exact hdisj r hr1
            · have : r = _ := List.mem_singleton.mp hr2
              subst this
              show (repoDelete st.repo num).lookup _ = none
              rw [h4]
              exact lookup_repoDelete_self st.repo num

/-- C4 witness: the amended invariant applied at the concrete
single-identity store and empty queue. -/
theorem dispatch_identity_unique_witness :
    (queueUuids ⟨[⟨"5551234",
        [("get_hospital", .bool false),
         ("triage_instructions", .str "Stay at home, rest, and take medication as necessary"),
         ("triage_code", .str "home"),
         ("phone_number", .str "5551234")]⟩], none, .acquire, .acquire, [], []⟩).Nodup := by
  refine (dispatch_identity_unique ⟨[], [("5551234", ⟨"5551234", []⟩)], none⟩ emptyDisp
    "home" "5551234" ⟨"5551234", []⟩ ⟨[], [], none⟩ _
    [.appendDispatch "5551234", .notifyCond, .repoDelete "5551234"]
    ?_ (by simp [queueUuids, emptyDisp]) ?_ rfl rfl).1
  · intro k r h
    simp only [List.lookup] at h
    cases hk : k == "5551234" with
    | false => rw [hk] at h; cases h
    | true =>
        rw [hk] at h
        cases h
        exact (eq_of_beq hk).symm
  · intro r hr
    simp [emptyDisp] at hr

/-- C6: FIFO discipline of the Dispatch Queue: the producer's enqueue
critical section appends at the tail, the worker's blocking dequeue
removes the head (handing exactly that record to the pipeline), and
draining tail-appended records observes them in exactly the enqueue
order. -/
theorem dispatch_fifo :
    (∀ (r : Record) (s s' : SysState), stepEnq r s = some s' →
      s'.queue = s.queue ++ [r]) ∧
    (∀ (e : Nat → Externals) (rad : Nat) (w : Bool) (s : SysState)
      (r : Record) (rest : List Record),
      getW w s = .popTry → s.lockHeld = some w → s.queue = r :: rest →
      stepW e rad w s = some (setW w (.pipe r 0) { s with queue := rest })) ∧
    (∀ rs : List Record, drain (rs.foldl enqueueTail []) = rs) := by
  refine ⟨fun r s s' h => stepEnq_queue r s s' h, ?_, ?_⟩
  · intro e rad w s r rest hph hl hq
    unfold stepW
    rw [hph, if_pos hl, hq]
  · intro rs
    rw [foldl_enqueueTail, List.nil_append, drain_eq]

/-- C6 witness: a concrete enqueue appends at the tail. -/
theorem dispatch_fifo_witness :
    (⟨[rGood], none, .acquire, .acquire, [], []⟩ : SysState).queue =
      emptyDisp.queue ++ [rGood] :=
  dispatch_fifo.1 rGood emptyDisp ⟨[rGood], none, .acquire, .acquire, [], []⟩ rfl

/-- C7: enqueue records A then B into the Intake Admission Queue via the
sms completion path, let the triage page pop A into the session, and let
a verdict with an unknown code requeue A to the front: the next two
head dequeues yield A and then B — the requeued record precedes every
previously enqueued pending record. -/
theorem requeue_precedence (a b : Record) (code : String) (disp : SysState)
    (hab : a.uuid ≠ b.uuid)
    (hcode : get_triage_instructions code = none) :
    smsComplete ⟨[], [(a.uuid, a), (b.uuid, b)], none⟩ a.uuid =
      some ⟨[a], [(a.uuid, a), (b.uuid, b)], none⟩ ∧
    smsComplete ⟨[a], [(a.uuid, a), (b.uuid, b)], none⟩ b.uuid =
      some ⟨[a, b], [(a.uuid, a), (b.uuid, b)], none⟩ ∧
    triaging ⟨[a, b], [(a.uuid, a), (b.uuid, b)], none⟩ =
      ⟨[b], [(a.uuid, a), (b.uuid, b)], some (a.uuid, a.values)⟩ ∧
    verdict ⟨[b], [(a.uuid, a), (b.uuid, b)], some (a.uuid, a.values)⟩ disp code a.uuid =
      some (⟨[a, b], [(a.uuid, a), (b.uuid, b)], none⟩, disp, [.appendLeftIntake a.uuid]) ∧
    popleft [a, b] = some (a, [b]) ∧
    popleft [b] = some (b, []) := by
  have haa : (a.uuid == a.uuid) = true := beq_self_eq_true _
  have hba : (b.uuid == a.uuid) = false := beq_eq_false_iff_ne.mpr (Ne.symm hab)
  have hbb : (b.uuid == b.uuid) = true := beq_self_eq_true _
  refine ⟨?_, ?_, rfl, ?_, rfl, rfl⟩
  · unfold smsComplete
    simp only [List.lookup, haa]
    rfl
  · unfold smsComplete
    simp only [List.lookup, hba, hbb]
    rfl
  · unfold verdict
    rw [hcode]
    dsimp only
    simp only [List.lookup, haa]

/-- C7 witness: the requeue-precedence run at two concrete records and a
concrete unknown code. -/
theorem requeue_precedence_witness :
    verdict ⟨[⟨"B2", []⟩], [("A1", ⟨"A1", []⟩), ("B2", ⟨"B2", []⟩)], some ("A1", [])⟩
        emptyDisp "nonsense" "A1" =
      some (⟨[⟨"A1", []⟩, ⟨"B2", []⟩], [("A1", ⟨"A1", []⟩), ("B2", ⟨"B2", []⟩)], none⟩,
        emptyDisp, [.appendLeftIntake "A1"]) ∧
    popleft [⟨"A1", []⟩, ⟨"B2", []⟩] = some (⟨"A1", []⟩, [⟨"B2", []⟩]) := by
  have h := requeue_precedence ⟨"A1", []⟩ ⟨"B2", []⟩ "nonsense" emptyDisp
    (by decide) rfl
  exact ⟨h.2.2.2.1, h.2.2.2.2.1⟩

/-- C8: a verdict submission with an unknown disposition code yields no
instructions (`none`), attaches no disposition fields, and routes the
unchanged record to the FRONT of the Intake Admission Queue, leaving the
Dispatch Queue untouched and raising no error. -/
theorem unknown_code_requeues (st : WebState) (disp : SysState) (code num : String)
    (u : Record)
    (hcode : code ∉ knownTriageCodes)
    (hmem : st.repo.lookup num = some u) :
    get_triage_instructions code = none ∧
    verdict st disp code num =
      some ({ st with session := none, userQueue := u :: st.userQueue }, disp,
        [.appendLeftIntake num]) := by
  have hg := get_triage_instructions_unknown code hcode
  refine ⟨hg, ?_⟩
  unfold verdict
  rw [hg]
  dsimp only
  rw [hmem]

/-- C8 witness: the concrete unknown code bogus requeues the concrete
record to the front. -/
theorem unknown_code_requeues_witness :
    get_triage_instructions "bogus" = none ∧
    verdict ⟨[], [("777", ⟨"777", []⟩)], some ("777", [])⟩ emptyDisp "bogus" "777" =
      some (⟨[⟨"777", []⟩], [("777", ⟨"777", []⟩)], none⟩, emptyDisp,
        [.appendLeftIntake "777"]) := by
  have h := unknown_code_requeues ⟨[], [("777", ⟨"777", []⟩)], some ("777", [])⟩
    emptyDisp "bogus" "777" ⟨"777", []⟩ (by decide) rfl
  exact ⟨h.1, h.2⟩

/-- C10: among the triage responses the facility-lookup flag is true
exactly for the four codes LEVEL 1 .. LEVEL 4; in particular the lookup
for gettest returns flag false although its resolution text promises a
list of nearby testing locations, and the worker pipeline for a gettest
record sends exactly that text with no facility list appended. -/
theorem facility_flag_exactly_levels :
    (∀ (code text : String) (flag : Bool),
      get_triage_instructions code = some (text, flag) →
      (flag = true ↔ code ∈ ["LEVEL 1", "LEVEL 2", "LEVEL 3", "LEVEL 4"])) ∧
    get_triage_instructions "gettest" =
      some ("Please get tested for COVID-19; you will be provided with a list of nearby testing locations:",
        false) ∧
    runPipelineOnce okExt 50 rGettest =
      .ok ("Please get tested for COVID-19; you will be provided with a list of nearby testing locations:",
        "5550004") := by
  refine ⟨?_, rfl, rfl⟩
  intro code text flag h
  have hm := lookup_mem triageResponses code (text, flag) h
  have hall : ∀ p ∈ triageResponses,
      (p.2.2 = true ↔ p.1 ∈ ["LEVEL 1", "LEVEL 2", "LEVEL 3", "LEVEL 4"]) := by
    decide
  exact hall (code, (text, flag)) hm

/-- C10 witness: the flag criterion applied at the concrete code
LEVEL 1. -/
theorem facility_flag_exactly_levels_witness :
    "LEVEL 1" ∈ ["LEVEL 1", "LEVEL 2", "LEVEL 3", "LEVEL 4"] :=
  (facility_flag_exactly_levels.1 "LEVEL 1"
    "Please seek Triage Level 1 assistance; you will be provided with a list of nearby hospitals/clinics:"
    true rfl).mp rfl

end TeleTriage
